import Mathlib

/-!
Verification of the deterministic computation core of the `frags` repository:
the natal/transit astrology computer (`synth_engine/compute/astrology.py`,
`synth_engine/compute/astrology_timing.py`), the signal fusion engine
(`synth_engine/fusion/fusion_engine.py`) and the relational graph engine
(`synth_engine/graph/bowen.py`).

Python floats are modelled as exact rationals (`ℚ`); the only transcendental
operation in the core, `math.exp` inside `squash`, is modelled over `ℝ`.
Python dicts with `.get(key, default)` access are modelled as structures of
`Option` fields read through `Option.getD`.
-/

namespace Frags

/-- Python helper `clamp(x, lo, hi) = max(lo, min(hi, x))` from
`fusion_engine.py`. -/
def clamp (x lo hi : ℚ) : ℚ := max lo (min hi x)

/-- Python float modulo `x % m` (sign of the divisor, i.e.
`x - m*floor(x/m)` for `m > 0`), used by `wrap360` and `ang_diff` in
`astrology.py`. -/
def pymod (x m : ℚ) : ℚ := x - m * (⌊x / m⌋ : ℤ)

/-- `wrap360` from `astrology.py`: `x = x % 360.0; return x + 360.0 if x < 0
else x`. -/
def wrap360 (x : ℚ) : ℚ :=
  let r := pymod x 360
  if r < 0 then r + 360 else r

/-- `ang_diff` from `astrology.py`:
`d = abs(wrap360(a) - wrap360(b)) % 360.0; return min(d, 360.0 - d)`. -/
def ang_diff (a b : ℚ) : ℚ :=
  let d := pymod |wrap360 a - wrap360 b| 360
  min d (360 - d)

/-- The `ASPECTS` table of `astrology.py`:
`{"conj":0.0, "opp":180.0, "trine":120.0, "square":90.0, "sextile":60.0}`,
in Python dict insertion order. -/
def ASPECTS : List (String × ℚ) :=
  [("conj", 0), ("opp", 180), ("trine", 120), ("square", 90), ("sextile", 60)]

/-- `aspect_strength` from `astrology.py`: returns `0` when `orb >= max_orb`,
otherwise `(1 - orb/max_orb)^2`. -/
def aspect_strength (orb max_orb : ℚ) : ℚ :=
  if max_orb ≤ orb then 0 else (1 - orb / max_orb) ^ 2

/-- One entry of the `aspects` list built by `compute_natal`. -/
structure AspectMatch where
  a : String
  b : String
  type : String
  exact_deg : ℚ
  orb : ℚ
  strength : ℚ
deriving DecidableEq, Repr

/-- The unordered-pair enumeration of the nested
`for i in range(len(keys)): for j in range(i+1, len(keys))` loop. -/
def pairsOf {α : Type} : List α → List (α × α)
  | [] => []
  | x :: xs => (xs.map fun y => (x, y)) ++ pairsOf xs

/-- The inner aspect loop of `compute_natal` for one pair of points:
for each `(asp_name, asp_deg)` in `ASPECTS`, with `orb = |d - asp_deg|`,
append a match iff `orb <= max_orb`. -/
def aspectsForPair (a b : String) (la lb : ℚ) (max_orb : ℚ) : List AspectMatch :=
  ASPECTS.flatMap fun te =>
    let orb := |ang_diff la lb - te.2|
    if orb ≤ max_orb then
      [⟨a, b, te.1, te.2, orb, aspect_strength orb max_orb⟩]
    else []

/-- The full (pre-sort) aspect list of `compute_natal` over the tracked
points `objs` (planet and angle longitudes keyed by name). -/
def natal_aspects_unsorted (objs : List (String × ℚ)) (max_orb : ℚ) :
    List AspectMatch :=
  (pairsOf objs).flatMap fun pq =>
    aspectsForPair pq.1.1 pq.2.1 pq.1.2 pq.2.2 max_orb

/-- The sort key of `compute_natal`: `key=lambda x: (-x["strength"], x["orb"])`. -/
def aspectLe (x y : AspectMatch) : Bool :=
  decide (y.strength < x.strength) ||
    (decide (x.strength = y.strength) && decide (x.orb ≤ y.orb))

/-- The `aspects` field of the chart returned by `compute_natal`: the pairwise
matches sorted by descending strength then ascending orb. -/
def natal_aspects (objs : List (String × ℚ)) (max_orb : ℚ) : List AspectMatch :=
  (natal_aspects_unsorted objs max_orb).mergeSort aspectLe

lemma mem_of_mem_pairsOf {α : Type} {l : List α} {p : α × α}
    (h : p ∈ pairsOf l) : p.1 ∈ l ∧ p.2 ∈ l := by
  induction l with
  | nil => simp [pairsOf] at h
  | cons x xs ih =>
    simp only [pairsOf, List.mem_append, List.mem_map] at h
    rcases h with ⟨y, hy, hxy⟩ | h
    · subst hxy; exact ⟨List.mem_cons_self _ _, List.mem_cons_of_mem _ hy⟩
    · exact ⟨List.mem_cons_of_mem _ (ih h).1, List.mem_cons_of_mem _ (ih h).2⟩

lemma nodup_lookup {objs : List (String × ℚ)}
    (hnd : (objs.map Prod.fst).Nodup) {a : String} {x y : ℚ}
    (hx : (a, x) ∈ objs) (hy : (a, y) ∈ objs) : x = y := by
  induction objs with
  | nil => simp at hx
  | cons p rest ih =>
    simp only [List.map_cons, List.nodup_cons] at hnd
    rcases List.mem_cons.mp hx with hx1 | hx2 <;>
      rcases List.mem_cons.mp hy with hy1 | hy2
    · rw [← hx1] at hy1; exact (Prod.mk.injEq _ _ _ _ ▸ hy1.symm).2
    · exfalso; apply hnd.1; rw [← hx1]; simpa using List.mem_map_of_mem Prod.fst hy2
    · exfalso; apply hnd.1; rw [← hy1]; simpa using List.mem_map_of_mem Prod.fst hx2
    · exact ih hnd.2 hx2 hy2

lemma ASPECTS_name_inj {t : String} {e e' : ℚ}
    (h : (t, e) ∈ ASPECTS) (h' : (t, e') ∈ ASPECTS) : e = e' := by
  simp only [ASPECTS, List.mem_cons, List.not_mem_nil, or_false,
    Prod.mk.injEq] at h h'
  rcases h with ⟨rfl, rfl⟩ | ⟨rfl, rfl⟩ | ⟨rfl, rfl⟩ | ⟨rfl, rfl⟩ | ⟨rfl, rfl⟩ <;>
    rcases h' with ⟨h2, rfl⟩ | ⟨h2, rfl⟩ | ⟨h2, rfl⟩ | ⟨h2, rfl⟩ | ⟨h2, rfl⟩ <;>
      first
        | rfl
        | exact absurd h2 (by decide)

lemma mem_natal_aspects_unsorted {objs : List (String × ℚ)} {max_orb : ℚ}
    {m : AspectMatch} :
    m ∈ natal_aspects_unsorted objs max_orb ↔
      ∃ pq ∈ pairsOf objs, ∃ te ∈ ASPECTS,
        |ang_diff pq.1.2 pq.2.2 - te.2| ≤ max_orb ∧
        m = ⟨pq.1.1, pq.2.1, te.1, te.2, |ang_diff pq.1.2 pq.2.2 - te.2|,
              aspect_strength (|ang_diff pq.1.2 pq.2.2 - te.2|) max_orb⟩ := by
  constructor
  · intro h
    rw [natal_aspects_unsorted, List.mem_flatMap] at h
    obtain ⟨pq, hpq, hm⟩ := h
    rw [aspectsForPair, List.mem_flatMap] at hm
    obtain ⟨te, hte, hm⟩ := hm
    dsimp only at hm
    split at hm
    · rcases List.mem_singleton.mp hm with rfl
      exact ⟨pq, hpq, te, hte, by assumption, rfl⟩
    · simp at hm
  · rintro ⟨pq, hpq, te, hte, horb, rfl⟩
    rw [natal_aspects_unsorted, List.mem_flatMap]
    refine ⟨pq, hpq, ?_⟩
    rw [aspectsForPair, List.mem_flatMap]
    refine ⟨te, hte, ?_⟩
    dsimp only
    rw [if_pos horb]
    exact List.mem_singleton.mpr rfl

lemma aspect_strength_eq {orb max_orb : ℚ} (hpos : 0 < max_orb)
    (h : orb ≤ max_orb) : aspect_strength orb max_orb = (1 - orb / max_orb) ^ 2 := by
  rw [aspect_strength]
  rcases lt_or_eq_of_le h with hlt | heq
  · rw [if_neg (not_le.mpr hlt)]
  · subst heq
    rw [if_pos le_rfl, div_self (ne_of_gt hpos)]
    norm_num

/-- C1: for every pair of tracked points (as enumerated by the
`compute_natal` pair loop) at angular difference `d = ang_diff la lb`, and
every supported aspect `(t, e)` in `ASPECTS`, the aspect list of the chart
contains an AspectMatch for that pair and aspect iff `|d - e| ≤ max_orb`;
every such emitted match carries `orb = |d - e|` and
`strength = (1 - orb/max_orb)^2`, which is exactly `1` at `orb = 0` and
exactly `0` at `orb = max_orb`. -/
theorem c1_orb_boundary (objs : List (String × ℚ)) (max_orb : ℚ)
    (hpos : 0 < max_orb) (hnd : (objs.map Prod.fst).Nodup)
    (a b : String) (la lb : ℚ) (hpair : ((a, la), (b, lb)) ∈ pairsOf objs)
    (t : String) (e : ℚ) (hasp : (t, e) ∈ ASPECTS) :
    ((∃ m ∈ natal_aspects objs max_orb, m.a = a ∧ m.b = b ∧ m.type = t) ↔
      |ang_diff la lb - e| ≤ max_orb)
    ∧ (∀ m ∈ natal_aspects objs max_orb,
        m.a = a → m.b = b → m.type = t →
          m.orb = |ang_diff la lb - e| ∧
          m.strength = (1 - m.orb / max_orb) ^ 2 ∧
          (m.orb = 0 → m.strength = 1) ∧
          (m.orb = max_orb → m.strength = 0)) := by
  have key : ∀ m ∈ natal_aspects objs max_orb,
      m.a = a → m.b = b → m.type = t →
        m.orb = |ang_diff la lb - e| ∧ m.orb ≤ max_orb ∧
        m.strength = aspect_strength m.orb max_orb := by
    intro m hm ha hb ht
    rw [natal_aspects, List.mem_mergeSort] at hm
    obtain ⟨pq, hpq, te, hte, horb, rfl⟩ := mem_natal_aspects_unsorted.mp hm
    dsimp only at ha hb ht ⊢
    subst ha; subst hb; subst ht
    have hmem := mem_of_mem_pairsOf hpq
    have hmemp := mem_of_mem_pairsOf hpair
    have h1 : pq.1.2 = la := by
      have : (pq.1.1, pq.1.2) ∈ objs := by simpa using hmem.1
      exact nodup_lookup hnd this hmemp.1
    have h2 : pq.2.2 = lb := by
      have : (pq.2.1, pq.2.2) ∈ objs := by simpa using hmem.2
      exact nodup_lookup hnd this hmemp.2
    have h3 : te.2 = e := ASPECTS_name_inj (by simpa using hte) hasp
    rw [h1, h2, h3]
    exact ⟨rfl, by rw [← h1, ← h2, ← h3]; exact horb, rfl⟩
  constructor
  · constructor
    · rintro ⟨m, hm, ha, hb, ht⟩
      obtain ⟨horb, hle, _⟩ := key m hm ha hb ht
      rw [← horb]; exact hle
    · intro horb
      refine ⟨⟨a, b, t, e, |ang_diff la lb - e|,
        aspect_strength (|ang_diff la lb - e|) max_orb⟩, ?_, rfl, rfl, rfl⟩
      rw [natal_aspects, List.mem_mergeSort]
      exact mem_natal_aspects_unsorted.mpr
        ⟨((a, la), (b, lb)), hpair, (t, e), hasp, horb, rfl⟩
  · intro m hm ha hb ht
    obtain ⟨horb, hle, hstr⟩ := key m hm ha hb ht
    have hs : m.strength = (1 - m.orb / max_orb) ^ 2 := by
      rw [hstr]; exact aspect_strength_eq hpos hle
    refine ⟨horb, hs, ?_, ?_⟩
    · intro h0; rw [hs, h0]; norm_num
    · intro hmax; rw [hs, hmax, div_self (ne_of_gt hpos)]; norm_num

/-- Witness for C1 at a concrete chart: two points 90° apart, `max_orb = 3`,
aspect `square` (exact angle 90): the match is emitted. -/
theorem c1_orb_boundary_witness :
    ((∃ m ∈ natal_aspects [("Sun", 10), ("Moon", 100)] 3,
        m.a = "Sun" ∧ m.b = "Moon" ∧ m.type = "square") ↔
      |ang_diff 10 100 - 90| ≤ 3)
    ∧ (∀ m ∈ natal_aspects [("Sun", 10), ("Moon", 100)] 3,
        m.a = "Sun" → m.b = "Moon" → m.type = "square" →
          m.orb = |ang_diff 10 100 - 90| ∧
          m.strength = (1 - m.orb / 3) ^ 2 ∧
          (m.orb = 0 → m.strength = 1) ∧
          (m.orb = 3 → m.strength = 0)) :=
  c1_orb_boundary [("Sun", 10), ("Moon", 100)] 3 (by norm_num) (by decide)
    "Sun" "Moon" 10 100 (by decide) "square" 90 (by decide)

/-- `normalize_weights` from `fusion_engine.py`: floor the three raw weights
at 0, fall back to `(0.60, 0.20, 0.20)` when the sum is `<= 1e-9`, otherwise
divide each by the sum. -/
def normalize_weights (w_user w_timing w_context : ℚ) : ℚ × ℚ × ℚ :=
  if max 0 w_user + max 0 w_timing + max 0 w_context ≤ 1 / 1000000000 then
    (3 / 5, 1 / 5, 1 / 5)
  else
    (max 0 w_user / (max 0 w_user + max 0 w_timing + max 0 w_context),
     max 0 w_timing / (max 0 w_user + max 0 w_timing + max 0 w_context),
     max 0 w_context / (max 0 w_user + max 0 w_timing + max 0 w_context))

/-- The per-subject state-model dict of `fusion_engine.py`; every field is
read with `.get(key, default)`, so each is an `Option`. -/
structure StateModel where
  w_user : Option ℚ
  w_timing : Option ℚ
  w_context : Option ℚ
  stress_bias : Option ℚ
  stress_scale : Option ℚ
deriving DecidableEq, Repr

/-- Default `lr_bias = 0.05` of `update_state_model_after_checkin`. -/
def default_lr_bias : ℚ := 1 / 20

/-- Default `lr_w = 0.02` of `update_state_model_after_checkin`. -/
def default_lr_w : ℚ := 1 / 50

/-- Default `max_timing_weight = 0.35` of `update_state_model_after_checkin`. -/
def default_max_timing_weight : ℚ := 7 / 20

/-- `update_state_model_after_checkin` from `fusion_engine.py`: normalize the
stored weights, nudge and clamp `stress_bias` to `[-0.25, 0.25]`, nudge and
clamp `w_timing` to `[0.05, max_timing_weight]`, recompute
`w_user = clamp(1 - w_timing - w_context, 0.40, 0.90)`, renormalize, and
return a fresh model dict; `stress_scale` is passed through unchanged. -/
def update_state_model_after_checkin (current_model : StateModel)
    (timing_signal stress_pred stress_gt : ℚ)
    (lr_bias lr_w max_timing_weight : ℚ) : StateModel :=
  let w0 := normalize_weights (current_model.w_user.getD (3 / 5))
      (current_model.w_timing.getD (1 / 5)) (current_model.w_context.getD (1 / 5))
  let bias0 := current_model.stress_bias.getD 0
  let scale := current_model.stress_scale.getD 1
  let err := stress_gt - stress_pred
  let bias := clamp (bias0 + lr_bias * err) (-(1 / 4)) (1 / 4)
  let centered := timing_signal - 1 / 2
  let w_timing := clamp (w0.2.1 + lr_w * err * centered) (1 / 20) max_timing_weight
  let w_user := clamp (1 - w_timing - w0.2.2) (2 / 5) (9 / 10)
  let w := normalize_weights w_user w_timing w0.2.2
  ⟨some w.1, some w.2.1, some w.2.2, some bias, some scale⟩

lemma normalize_weights_sum (a b c : ℚ) :
    (normalize_weights a b c).1 + (normalize_weights a b c).2.1 +
      (normalize_weights a b c).2.2 = 1 := by
  rw [normalize_weights]
  split
  · norm_num
  · rename_i hs
    have hsmall : (0 : ℚ) < 1 / 1000000000 := by norm_num
    have hpos : 0 < max 0 a + max 0 b + max 0 c := by
      have := not_le.mp hs
      linarith
    dsimp only
    field_simp

lemma normalize_weights_mem (a b c : ℚ) :
    (0 ≤ (normalize_weights a b c).1 ∧ (normalize_weights a b c).1 ≤ 1) ∧
    (0 ≤ (normalize_weights a b c).2.1 ∧ (normalize_weights a b c).2.1 ≤ 1) ∧
    (0 ≤ (normalize_weights a b c).2.2 ∧ (normalize_weights a b c).2.2 ≤ 1) := by
  rw [normalize_weights]
  split
  · norm_num
  · rename_i hs
    have hsmall : (0 : ℚ) < 1 / 1000000000 := by norm_num
    have hpos : 0 < max 0 a + max 0 b + max 0 c := by
      have := not_le.mp hs
      linarith
    dsimp only
    have ha : 0 ≤ max 0 a := le_max_left _ _
    have hb : 0 ≤ max 0 b := le_max_left _ _
    have hc : 0 ≤ max 0 c := le_max_left _ _
    refine ⟨⟨div_nonneg ha hpos.le, ?_⟩, ⟨div_nonneg hb hpos.le, ?_⟩,
      ⟨div_nonneg hc hpos.le, ?_⟩⟩ <;>
      · rw [div_le_one hpos]; linarith

/-- C5: `normalize_weights` is the identity on non-negative triples summing
to 1 (exactly, since floats are modelled as rationals), maps the all-zero
triple to `(0.60, 0.20, 0.20)`, and for every input returns non-negative
components summing to 1. -/
theorem c5_normalize_weights :
    (∀ wu wt wc : ℚ, 0 ≤ wu → 0 ≤ wt → 0 ≤ wc → wu + wt + wc = 1 →
      normalize_weights wu wt wc = (wu, wt, wc))
    ∧ normalize_weights 0 0 0 = (3 / 5, 1 / 5, 1 / 5)
    ∧ (∀ wu wt wc : ℚ,
        0 ≤ (normalize_weights wu wt wc).1 ∧
        0 ≤ (normalize_weights wu wt wc).2.1 ∧
        0 ≤ (normalize_weights wu wt wc).2.2 ∧
        (normalize_weights wu wt wc).1 + (normalize_weights wu wt wc).2.1 +
          (normalize_weights wu wt wc).2.2 = 1) := by
  refine ⟨?_, by norm_num [normalize_weights], ?_⟩
  · intro wu wt wc hu ht hc hsum
    rw [normalize_weights]
    rw [max_eq_right hu, max_eq_right ht, max_eq_right hc, hsum]
    rw [if_neg (by norm_num)]
    norm_num
  · intro wu wt wc
    obtain ⟨⟨h1, _⟩, ⟨h2, _⟩, ⟨h3, _⟩⟩ := normalize_weights_mem wu wt wc
    exact ⟨h1, h2, h3, normalize_weights_sum wu wt wc⟩

/-- Witness for C5 at concrete triples. -/
theorem c5_normalize_weights_witness :
    normalize_weights (1 / 2) (1 / 4) (1 / 4) = (1 / 2, 1 / 4, 1 / 4) ∧
    normalize_weights 0 0 0 = (3 / 5, 1 / 5, 1 / 5) :=
  ⟨c5_normalize_weights.1 (1 / 2) (1 / 4) (1 / 4) (by norm_num) (by norm_num)
      (by norm_num) (by norm_num),
    c5_normalize_weights.2.1⟩

/-- C10: the online update never changes `stress_scale`: the returned model
carries exactly the input model's `stress_scale` (default `1.0` when the key
is absent).  The source builds and returns a fresh dict and only ever calls
`.get` on `current_model`, which the embedding reflects by being a pure
function of the input model: the input value is left untouched. -/
theorem c10_scale_preserved (m : StateModel) (ts sp sg lb lw mtw : ℚ) :
    (update_state_model_after_checkin m ts sp sg lb lw mtw).stress_scale =
      some (m.stress_scale.getD 1) := rfl

lemma clamp_mem {x lo hi : ℚ} (h : lo ≤ hi) :
    lo ≤ clamp x lo hi ∧ clamp x lo hi ≤ hi :=
  ⟨le_max_left _ _, max_le h (min_le_left _ _)⟩

lemma renorm_wt_bounds {wt wc : ℚ} (hwt1 : 1 / 20 ≤ wt) (hwt2 : wt ≤ 7 / 20)
    (hwc0 : 0 ≤ wc) (hwc1 : wc ≤ 1) :
    1 / 29 ≤ (normalize_weights (clamp (1 - wt - wc) (2 / 5) (9 / 10)) wt wc).2.1 ∧
    (normalize_weights (clamp (1 - wt - wc) (2 / 5) (9 / 10)) wt wc).2.1 ≤ 7 / 20 := by
  obtain ⟨hu1, hu2⟩ := @clamp_mem (1 - wt - wc) (2 / 5) (9 / 10) (by norm_num)
  set u := clamp (1 - wt - wc) (2 / 5) (9 / 10) with hu
  rw [normalize_weights]
  rw [max_eq_right (by linarith : (0 : ℚ) ≤ u), max_eq_right (by linarith),
    max_eq_right hwc0]
  rw [if_neg (by push_neg; linarith)]
  have hspos : (0 : ℚ) < u + wt + wc := by linarith
  have hmin : min ((9 : ℚ) / 10) (1 - wt - wc) ≤ u := by
    rw [hu, clamp]; exact le_max_right _ _
  dsimp only
  constructor
  · rw [le_div_iff₀ hspos]
    rcases le_total (min ((9 : ℚ) / 10) (1 - wt - wc)) (2 / 5) with h | h
    · have h1 : u = 2 / 5 := by rw [hu, clamp, max_eq_left h]
      rw [h1]; linarith
    · have h1 : u = min ((9 : ℚ) / 10) (1 - wt - wc) := by
        rw [hu, clamp, max_eq_right h]
      have h2 : u ≤ 1 - wt - wc := by rw [h1]; exact min_le_right _ _
      linarith
  · rw [div_le_iff₀ hspos]
    rcases le_total (1 - wt - wc) ((9 : ℚ) / 10) with h | h
    · rw [min_eq_right h] at hmin
      linarith
    · rw [min_eq_left h] at hmin
      have h3 : wt + wc ≤ 1 / 10 := by linarith
      linarith

lemma update_bounds (m : StateModel) (ts sp sg : ℚ) :
    ∃ b wt : ℚ,
      (update_state_model_after_checkin m ts sp sg default_lr_bias default_lr_w
          default_max_timing_weight).stress_bias = some b ∧
      (update_state_model_after_checkin m ts sp sg default_lr_bias default_lr_w
          default_max_timing_weight).w_timing = some wt ∧
      -(1 / 4) ≤ b ∧ b ≤ 1 / 4 ∧ 1 / 29 ≤ wt ∧ wt ≤ 7 / 20 := by
  set w0 := normalize_weights (m.w_user.getD (3 / 5)) (m.w_timing.getD (1 / 5))
      (m.w_context.getD (1 / 5)) with hw0
  set wt := clamp (w0.2.1 + default_lr_w * (sg - sp) * (ts - 1 / 2)) (1 / 20)
      default_max_timing_weight with hwt
  set b := clamp (m.stress_bias.getD 0 + default_lr_bias * (sg - sp)) (-(1 / 4))
      (1 / 4) with hb
  refine ⟨b, (normalize_weights (clamp (1 - wt - w0.2.2) (2 / 5) (9 / 10)) wt
      w0.2.2).2.1, rfl, rfl, (clamp_mem (by norm_num)).1, (clamp_mem (by norm_num)).2,
    ?_, ?_⟩
  all_goals
    have hwtb := @clamp_mem (w0.2.1 + default_lr_w * (sg - sp) * (ts - 1 / 2))
      (1 / 20) default_max_timing_weight
      (by rw [default_max_timing_weight]; norm_num)
    have hwcb := (normalize_weights_mem (m.w_user.getD (3 / 5))
      (m.w_timing.getD (1 / 5)) (m.w_context.getD (1 / 5))).2.2
    rw [← hw0] at hwcb
    have h1 : 1 / 20 ≤ wt := hwtb.1
    have h2 : wt ≤ 7 / 20 := by
      have := hwtb.2; rw [default_max_timing_weight] at this; exact this
  · exact (renorm_wt_bounds h1 h2 hwcb.1 hwcb.2).1
  · exact (renorm_wt_bounds h1 h2 hwcb.1 hwcb.2).2

/-- The iterated online update: fold `update_state_model_after_checkin` (with
its default learning rates) over a list of
`(timing_signal, stress_pred, stress_gt)` inputs. -/
def runUpdates (m0 : StateModel) (inputs : List (ℚ × ℚ × ℚ)) : StateModel :=
  inputs.foldl
    (fun m i => update_state_model_after_checkin m i.1 i.2.1 i.2.2
      default_lr_bias default_lr_w default_max_timing_weight) m0

/-- The starting model `{w_user: 0, w_timing: 0, w_context: 1}` used to refute
the claimed lower bound `0.05` on the returned `w_timing`. -/
def c2CounterModel : StateModel := ⟨some 0, some 0, some 1, none, none⟩

set_option maxHeartbeats 1000000 in
/-- Counterexample to C2 as stated: from the starting model
`{w_user: 0, w_timing: 0, w_context: 1}`, one update call with
`timing_signal = 0.5`, `stress_pred = 0`, `stress_gt = 1` (maximal error)
returns `w_timing = 1/29 ≈ 0.0345 < 0.05`: the final renormalization pushes
the clamped `w_timing` back below `0.05`. -/
theorem c2_counterexample :
    (runUpdates c2CounterModel [(1 / 2, 0, 1)]).w_timing = some (1 / 29) ∧
    ¬ (1 / 20 ≤ (1 / 29 : ℚ)) := by
  constructor
  · show (update_state_model_after_checkin c2CounterModel (1 / 2) 0 1
        default_lr_bias default_lr_w default_max_timing_weight).w_timing =
      some (1 / 29)
    rw [update_state_model_after_checkin]
    norm_num [c2CounterModel, normalize_weights, clamp, default_lr_w,
      default_max_timing_weight, max_def, min_def]
  · norm_num

/-- C2 (amended): for every starting StateModel and every non-empty sequence
of update calls (arbitrary inputs, feeding each returned model into the next
call), the returned `stress_bias` stays in `[-0.25, 0.25]` and the returned
`w_timing` stays in `[1/29, 0.35]` — the lower end is `1/29 ≈ 0.0345`, not
the claimed `0.05`, because the final renormalization divides the clamped
`w_timing` by a weight sum that can reach `29/20`. -/
theorem c2_online_update_bounded (m0 : StateModel)
    (inputs : List (ℚ × ℚ × ℚ)) (hne : inputs ≠ []) :
    ∃ b wt : ℚ,
      (runUpdates m0 inputs).stress_bias = some b ∧
      (runUpdates m0 inputs).w_timing = some wt ∧
      -(1 / 4) ≤ b ∧ b ≤ 1 / 4 ∧ 1 / 29 ≤ wt ∧ wt ≤ 7 / 20 := by
  induction inputs generalizing m0 with
  | nil => exact absurd rfl hne
  | cons i rest ih =>
    rw [show runUpdates m0 (i :: rest) =
        runUpdates (update_state_model_after_checkin m0 i.1 i.2.1 i.2.2
          default_lr_bias default_lr_w default_max_timing_weight) rest from rfl]
    rcases rest with _ | ⟨j, rest2⟩
    · exact update_bounds _ i.1 i.2.1 i.2.2
    · exact ih _ (by simp)

/-- Witness for C2 (amended) at a concrete starting model and input list. -/
theorem c2_online_update_bounded_witness :
    ∃ b wt : ℚ,
      (runUpdates c2CounterModel [(1 / 2, 0, 1)]).stress_bias = some b ∧
      (runUpdates c2CounterModel [(1 / 2, 0, 1)]).w_timing = some wt ∧
      -(1 / 4) ≤ b ∧ b ≤ 1 / 4 ∧ 1 / 29 ≤ wt ∧ wt ≤ 7 / 20 :=
  c2_online_update_bounded c2CounterModel [(1 / 2, 0, 1)] (List.cons_ne_nil _ _)

/-- A check-in dict: every field is read with `.get(key, default)` and cast
with `int(...)`, so numeric fields are `Option ℤ`. -/
structure Checkin where
  stress : Option ℤ
  sleep_quality : Option ℤ
  mood : Option ℤ
  energy : Option ℤ
  source : Option String
deriving DecidableEq, Repr

/-- `to01_from_0_100` from `fusion_engine.py`: negative (or missing, encoded
as the `-1` dict default) values map to `None`, otherwise `clamp(v/100, 0, 1)`. -/
def to01_from_0_100 (v : ℤ) : Option ℚ :=
  if v < 0 then none else some (clamp ((v : ℚ) / 100) 0 1)

/-- The inferred-context dict; only its `stress` key is read. -/
structure ContextInferred where
  stress : Option ℚ
deriving DecidableEq, Repr

/-- The timing-priors dict with `BIS`/`BAS`/`FFFS` keys. -/
structure TimingPriors where
  BIS : Option ℚ
  BAS : Option ℚ
  FFFS : Option ℚ
deriving DecidableEq, Repr

/-- One entry of the `drivers["stress"]` list. -/
structure Driver where
  src : String
  value : ℚ
  weight : ℚ
deriving DecidableEq, Repr

/-- The 9-dimensional latent vector of `build_state_from_sources`. -/
structure LatentVector where
  stress : ℚ
  BIS : ℚ
  BAS : ℚ
  FFFS : ℚ
  exec_load : ℚ
  recovery : ℚ
  affect_volatility : ℚ
  rumination : ℚ
  social_appetite : ℚ
deriving DecidableEq, Repr

/-- The full return value of `build_state_from_sources`. -/
structure LatentState where
  vector : LatentVector
  uncertainty : List (String × ℚ)
  drivers : List Driver
  calibration_questions : List String
  state_model_used : ℚ × ℚ × ℚ × ℚ × ℚ
  confidence : ℚ
deriving DecidableEq, Repr

/-- `(state_model or {}).get(key, default)`: read an optional field of an
optional model dict. -/
def smGet (sm : Option StateModel) (f : StateModel → Option ℚ) (d : ℚ) : ℚ :=
  match sm with
  | none => d
  | some m => (f m).getD d

/-- `build_state_from_sources` from `fusion_engine.py`, line for line: weight
normalization, optional check-in parsing through `to01_from_0_100` (with the
`-1` missing-key default), the self-report-first stress branch, the affine
`stress*scale + bias` transform, the eight fixed linear combinations, the two
fixed uncertainty tables, and the calibration question in the inference
branch. -/
def build_state_from_sources (checkin : Option Checkin)
    (context_inferred : Option ContextInferred)
    (timing_priors : Option TimingPriors)
    (state_model : Option StateModel) : LatentState :=
  let w := normalize_weights (smGet state_model StateModel.w_user (3 / 5))
      (smGet state_model StateModel.w_timing (1 / 5))
      (smGet state_model StateModel.w_context (1 / 5))
  let stress_bias := smGet state_model StateModel.stress_bias 0
  let stress_scale := smGet state_model StateModel.stress_scale 1
  let stress_gt := match checkin with
    | none => none
    | some c => to01_from_0_100 (c.stress.getD (-1))
  let sleep_q := match checkin with
    | none => none
    | some c => to01_from_0_100 (c.sleep_quality.getD (-1))
  let mood := match checkin with
    | none => none
    | some c => to01_from_0_100 (c.mood.getD (-1))
  let energy := match checkin with
    | none => none
    | some c => to01_from_0_100 (c.energy.getD (-1))
  let ctx_stress : Option ℚ := match context_inferred with
    | none => none
    | some ci => some (ci.stress.getD 0)
  let tBIS := match timing_priors with | none => 0 | some t => t.BIS.getD 0
  let tBAS := match timing_priors with | none => 0 | some t => t.BAS.getD 0
  let tFFFS := match timing_priors with | none => 0 | some t => t.FFFS.getD 0
  let declared := match checkin with | none => "user" | some c => c.source.getD "user"
  let stress0 := match stress_gt with
    | some sgt => sgt
    | none =>
        clamp ((match ctx_stress with | none => 0 | some cs => w.2.2 * cs) +
          w.2.1 * (65 / 100 * tBIS + 35 / 100 * tFFFS)) 0 1
  let stress_conf : ℚ := match stress_gt with
    | some _ => if declared = "user" then 4 / 5 else 13 / 20
    | none => 9 / 20
  let drivers : List Driver := match stress_gt with
    | some sgt => [⟨"checkin", sgt, w.1⟩]
    | none =>
        (match ctx_stress with
          | none => []
          | some cs => [⟨"context", cs, w.2.2⟩]) ++
        [⟨"timing_astro", 65 / 100 * tBIS + 35 / 100 * tFFFS, w.2.1⟩]
  let stress := clamp (stress0 * stress_scale + stress_bias) 0 1
  let BIS := clamp (65 / 100 * stress + 35 / 100 * tBIS) 0 1
  let BAS := clamp (70 / 100 * tBAS + 30 / 100 * energy.getD (1 / 2)) 0 1
  let FFFS := clamp (60 / 100 * tFFFS + 40 / 100 * stress) 0 1
  let exec_load := clamp (60 / 100 * stress + 40 / 100 * (1 - sleep_q.getD (1 / 2))) 0 1
  let recovery := clamp (sleep_q.getD (1 / 2) * (1 - 60 / 100 * stress)) 0 1
  let affect_volatility :=
    clamp (70 / 100 * stress + 30 / 100 * (1 - mood.getD (1 / 2))) 0 1
  let rumination := clamp (75 / 100 * BIS + 25 / 100 * stress) 0 1
  let social_appetite :=
    clamp (60 / 100 * (1 - BIS) + 40 / 100 * energy.getD (1 / 2)) 0 1
  let unc : List (String × ℚ) := match stress_gt with
    | some _ =>
        [("stress", 3 / 10), ("BIS", 7 / 20), ("BAS", 9 / 20), ("FFFS", 2 / 5),
         ("exec_load", 2 / 5), ("recovery", 9 / 20), ("affect_volatility", 2 / 5),
         ("rumination", 2 / 5), ("social_appetite", 9 / 20)]
    | none =>
        [("stress", 3 / 5), ("BIS", 3 / 5), ("BAS", 13 / 20), ("FFFS", 13 / 20),
         ("exec_load", 13 / 20), ("recovery", 13 / 20),
         ("affect_volatility", 13 / 20), ("rumination", 13 / 20),
         ("social_appetite", 13 / 20)]
  let calib : List String := match stress_gt with
    | some _ => []
    | none =>
        ["Quick check: how stressed do you feel right now? (Very Low / Low / Medium / High / Very High)"]
  { vector := ⟨stress, BIS, BAS, FFFS, exec_load, recovery, affect_volatility,
      rumination, social_appetite⟩
    uncertainty := unc
    drivers := drivers
    calibration_questions := calib
    state_model_used := (w.1, w.2.1, w.2.2, stress_bias, stress_scale)
    confidence := stress_conf }

/-- C4: when the check-in carries a self-report `stress = 40` on the 0-100
scale with declared source `"user"`, then — for arbitrary context and timing
inputs, under default `stress_bias = 0` and `stress_scale = 1` — the fused
stress is exactly `0.40` and the confidence exactly `0.80`: the self-report
branch takes precedence over the context/timing inference branch. -/
theorem c4_self_report_precedence (c : Checkin) (ctx : Option ContextInferred)
    (tp : Option TimingPriors) (sm : Option StateModel)
    (hstress : c.stress = some 40)
    (hsrc : c.source = some "user")
    (hbias : smGet sm StateModel.stress_bias 0 = 0)
    (hscale : smGet sm StateModel.stress_scale 1 = 1) :
    (build_state_from_sources (some c) ctx tp sm).vector.stress = 2 / 5 ∧
    (build_state_from_sources (some c) ctx tp sm).confidence = 4 / 5 := by
  have h40 : to01_from_0_100 (c.stress.getD (-1)) = some (2 / 5) := by
    rw [hstress]
    show to01_from_0_100 40 = some (2 / 5)
    rw [to01_from_0_100, if_neg (by norm_num), clamp]
    norm_num
  rw [build_state_from_sources.eq_def]
  simp only [h40, hsrc, hbias, hscale, Option.getD_some]
  constructor
  · show clamp (2 / 5 * 1 + 0) 0 1 = 2 / 5
    rw [clamp]; norm_num
  · simp

/-- Witness for C4 at a concrete check-in. -/
theorem c4_self_report_precedence_witness :
    (build_state_from_sources (some ⟨some 40, none, none, none, some "user"⟩)
        none none none).vector.stress = 2 / 5 ∧
    (build_state_from_sources (some ⟨some 40, none, none, none, some "user"⟩)
        none none none).confidence = 4 / 5 :=
  c4_self_report_precedence ⟨some 40, none, none, none, some "user"⟩ none none
    none rfl rfl rfl rfl

/-- C9: a supplied check-in whose `stress` entry is missing or negative is
treated, for the stress dimension, exactly as if no stress self-report had
been given: the whole output equals the output for the same check-in with the
stress entry removed, the stress comes from the context/timing inference
branch (then the affine `scale`/`bias` transform), the confidence is `0.45`,
and a calibration question is returned. -/
theorem c9_missing_or_negative_stress (c : Checkin) (ctx : Option ContextInferred)
    (tp : Option TimingPriors) (sm : Option StateModel)
    (h : c.stress = none ∨ ∃ v, c.stress = some v ∧ v < 0) :
    build_state_from_sources (some c) ctx tp sm =
      build_state_from_sources (some { c with stress := none }) ctx tp sm ∧
    (build_state_from_sources (some c) ctx tp sm).confidence = 9 / 20 ∧
    (build_state_from_sources (some c) ctx tp sm).vector.stress =
      clamp (clamp ((match ctx with
          | none => 0
          | some ci =>
              (normalize_weights (smGet sm StateModel.w_user (3 / 5))
                  (smGet sm StateModel.w_timing (1 / 5))
                  (smGet sm StateModel.w_context (1 / 5))).2.2 *
                ci.stress.getD 0) +
        (normalize_weights (smGet sm StateModel.w_user (3 / 5))
            (smGet sm StateModel.w_timing (1 / 5))
            (smGet sm StateModel.w_context (1 / 5))).2.1 *
          (65 / 100 * (match tp with | none => 0 | some t => t.BIS.getD 0) +
            35 / 100 * (match tp with | none => 0 | some t => t.FFFS.getD 0))) 0 1 *
        smGet sm StateModel.stress_scale 1 + smGet sm StateModel.stress_bias 0) 0 1 ∧
    (build_state_from_sources (some c) ctx tp sm).calibration_questions ≠ [] := by
  have hnone : to01_from_0_100 (c.stress.getD (-1)) = none := by
    rcases h with h | ⟨v, hv, hvneg⟩
    · rw [h]
      show to01_from_0_100 (-1) = none
      rw [to01_from_0_100, if_pos (by norm_num)]
    · rw [hv, Option.getD_some, to01_from_0_100, if_pos hvneg]
  have hnone2 : to01_from_0_100 ((none : Option ℤ).getD (-1)) = none := by
    show to01_from_0_100 (-1) = none
    rw [to01_from_0_100, if_pos (by norm_num)]
  refine ⟨?_, ?_, ?_, ?_⟩
  · rw [build_state_from_sources.eq_def, build_state_from_sources.eq_def]
    simp only [hnone, hnone2]
  · rw [build_state_from_sources.eq_def]
    simp only [hnone]
  · rw [build_state_from_sources.eq_def]
    simp only [hnone]
    cases ctx <;> simp
  · rw [build_state_from_sources.eq_def]
    simp only [hnone]
    simp

/-- Witness for C9 at a concrete check-in with no stress entry. -/
theorem c9_missing_or_negative_stress_witness :
    build_state_from_sources (some ⟨none, none, none, none, none⟩) none none none =
      build_state_from_sources
        (some { (⟨none, none, none, none, none⟩ : Checkin) with stress := none })
        none none none ∧
    (build_state_from_sources (some ⟨none, none, none, none, none⟩) none none
        none).confidence = 9 / 20 ∧
    (build_state_from_sources (some ⟨none, none, none, none, none⟩) none none
        none).vector.stress =
      clamp (clamp ((match (none : Option ContextInferred) with
          | none => 0
          | some ci =>
              (normalize_weights (smGet none StateModel.w_user (3 / 5))
                  (smGet none StateModel.w_timing (1 / 5))
                  (smGet none StateModel.w_context (1 / 5))).2.2 *
                ci.stress.getD 0) +
        (normalize_weights (smGet none StateModel.w_user (3 / 5))
            (smGet none StateModel.w_timing (1 / 5))
            (smGet none StateModel.w_context (1 / 5))).2.1 *
          (65 / 100 * (match (none : Option TimingPriors) with
              | none => 0 | some t => t.BIS.getD 0) +
            35 / 100 * (match (none : Option TimingPriors) with
              | none => 0 | some t => t.FFFS.getD 0))) 0 1 *
        smGet none StateModel.stress_scale 1 +
        smGet none StateModel.stress_bias 0) 0 1 ∧
    (build_state_from_sources (some ⟨none, none, none, none, none⟩) none none
        none).calibration_questions ≠ [] :=
  c9_missing_or_negative_stress ⟨none, none, none, none, none⟩ none none none
    (Or.inl rfl)

/-- One transit event dict built by `detect_transit_events` in
`astrology_timing.py`. -/
structure TransitEvent where
  tier : String
  transit : String
  natal : String
  aspect : String
  orb : ℚ
  strength : ℚ
deriving DecidableEq, Repr

/-- The hard-aspect test `asp in ("conj", "square", "opp")` of
`state_priors_from_transits`. -/
def hard_aspect (asp : String) : Bool :=
  asp == "conj" || asp == "square" || asp == "opp"

/-- One iteration of the accumulation loop of `state_priors_from_transits`:
Saturn feeds BIS (0.8 hard / 0.4 soft), Mars feeds BAS (0.7/0.4) and FFFS
(0.6/0.2), Jupiter feeds BAS (0.5, any aspect), Uranus/Pluto feed FFFS (0.4)
and BIS (0.3) on hard aspects only. -/
def priors_step (acc : ℚ × ℚ × ℚ) (e : TransitEvent) : ℚ × ℚ × ℚ :=
  let hard := hard_aspect e.aspect
  let BIS := acc.1 +
    (if e.transit = "Saturn" then (if hard then 4 / 5 else 2 / 5) * e.strength else 0)
  let BAS := acc.2.1 +
    (if e.transit = "Mars" then (if hard then 7 / 10 else 2 / 5) * e.strength else 0)
  let FFFS := acc.2.2 +
    (if e.transit = "Mars" then (if hard then 3 / 5 else 1 / 5) * e.strength else 0)
  let BAS := BAS + (if e.transit = "Jupiter" then 1 / 2 * e.strength else 0)
  let FFFS := FFFS +
    (if (e.transit = "Uranus" ∨ e.transit = "Pluto") ∧ hard then 2 / 5 * e.strength else 0)
  let BIS := BIS +
    (if (e.transit = "Uranus" ∨ e.transit = "Pluto") ∧ hard then 3 / 10 * e.strength else 0)
  (BIS, BAS, FFFS)

/-- The `(BIS, BAS, FFFS)` accumulators of `state_priors_from_transits`
before squashing, starting from `(0, 0, 0)`. -/
def priors_acc (events : List TransitEvent) : ℚ × ℚ × ℚ :=
  events.foldl priors_step (0, 0, 0)

/-- `squash` from `astrology_timing.py`: `1 - exp(-max(0, x))`. -/
noncomputable def squash (x : ℝ) : ℝ := 1 - Real.exp (-(max 0 x))

/-- `state_priors_from_transits` from `astrology_timing.py`: accumulate,
then squash each accumulator independently. -/
noncomputable def state_priors_from_transits (events : List TransitEvent) :
    ℝ × ℝ × ℝ :=
  (squash ((priors_acc events).1 : ℚ), squash ((priors_acc events).2.1 : ℚ),
    squash ((priors_acc events).2.2 : ℚ))

/-- The claimed per-event BIS contribution (spec §4.1 wording): Saturn adds
`0.8x`/`0.4x` (hard/soft), Uranus and Pluto add `0.3x` on hard aspects only. -/
def contribBIS (e : TransitEvent) : ℚ :=
  (if e.transit = "Saturn" then
    (if hard_aspect e.aspect then 4 / 5 else 2 / 5) * e.strength else 0) +
  (if (e.transit = "Uranus" ∨ e.transit = "Pluto") ∧ hard_aspect e.aspect then
    3 / 10 * e.strength else 0)

/-- The claimed per-event BAS contribution: Mars adds `0.7x`/`0.4x`
(hard/soft), Jupiter adds `0.5x` on any aspect. -/
def contribBAS (e : TransitEvent) : ℚ :=
  (if e.transit = "Mars" then
    (if hard_aspect e.aspect then 7 / 10 else 2 / 5) * e.strength else 0) +
  (if e.transit = "Jupiter" then 1 / 2 * e.strength else 0)

/-- The claimed per-event FFFS contribution: Mars adds `0.6x`/`0.2x`
(hard/soft), Uranus and Pluto add `0.4x` on hard aspects only. -/
def contribFFFS (e : TransitEvent) : ℚ :=
  (if e.transit = "Mars" then
    (if hard_aspect e.aspect then 3 / 5 else 1 / 5) * e.strength else 0) +
  (if (e.transit = "Uranus" ∨ e.transit = "Pluto") ∧ hard_aspect e.aspect then
    2 / 5 * e.strength else 0)

lemma priors_foldl (events : List TransitEvent) (acc : ℚ × ℚ × ℚ) :
    events.foldl priors_step acc =
      (acc.1 + (events.map contribBIS).sum,
       acc.2.1 + (events.map contribBAS).sum,
       acc.2.2 + (events.map contribFFFS).sum) := by
  induction events generalizing acc with
  | nil => simp
  | cons e es ih =>
    rw [List.foldl_cons, ih]
    simp only [List.map_cons, List.sum_cons, priors_step, contribBIS, contribBAS,
      contribFFFS, Prod.mk.injEq]
    refine ⟨by ring, by ring, by ring⟩

lemma priors_acc_eq_sum (events : List TransitEvent) :
    priors_acc events =
      ((events.map contribBIS).sum, (events.map contribBAS).sum,
        (events.map contribFFFS).sum) := by
  rw [priors_acc, priors_foldl]
  norm_num

lemma squash_mem (x : ℝ) : 0 ≤ squash x ∧ squash x < 1 := by
  rw [squash]
  constructor
  · have h : Real.exp (-(max 0 x)) ≤ 1 :=
      Real.exp_le_one_iff.mpr (neg_nonpos.mpr (le_max_left 0 x))
    linarith
  · have h : 0 < Real.exp (-(max 0 x)) := Real.exp_pos _
    linarith

/-- C3: `state_priors_from_transits` computes exactly the claimed per-body
weighted sums of event strength (one additive contribution per event, per
the `contribBIS`/`contribBAS`/`contribFFFS` tables), passes each accumulator
through `squash(x) = 1 - e^(-max(0,x))`, and each returned prior lies in
`[0, 1)`. -/
theorem c3_state_priors (events : List TransitEvent) :
    state_priors_from_transits events =
      (squash ((events.map contribBIS).sum : ℚ),
       squash ((events.map contribBAS).sum : ℚ),
       squash ((events.map contribFFFS).sum : ℚ)) ∧
    (0 ≤ (state_priors_from_transits events).1 ∧
      (state_priors_from_transits events).1 < 1) ∧
    (0 ≤ (state_priors_from_transits events).2.1 ∧
      (state_priors_from_transits events).2.1 < 1) ∧
    (0 ≤ (state_priors_from_transits events).2.2 ∧
      (state_priors_from_transits events).2.2 < 1) := by
  refine ⟨?_, ?_, ?_, ?_⟩
  · rw [state_priors_from_transits, priors_acc_eq_sum]
  · exact squash_mem _
  · exact squash_mem _
  · exact squash_mem _

/-- The sort key of `detect_transit_events`:
`key=lambda e: (-e["strength"], e["orb"])`. -/
def transitLe (x y : TransitEvent) : Bool :=
  decide (y.strength < x.strength) ||
    (decide (x.strength = y.strength) && decide (x.orb ≤ y.orb))

/-- `detect_transit_events` from `astrology_timing.py`: for each transit
planet against each natal point (planets and angles), for each aspect, with
`o = |ang_diff - asp_deg|`, emit an event iff `o <= orb`, then sort by
descending strength and ascending orb. -/
def detect_transit_events (natal_objs trans_objs : List (String × ℚ))
    (orb : ℚ) (tier : String) : List TransitEvent :=
  (trans_objs.flatMap fun tq =>
    natal_objs.flatMap fun nq =>
      ASPECTS.flatMap fun te =>
        let o := |ang_diff tq.2 nq.2 - te.2|
        if o ≤ orb then
          [⟨tier, tq.1, nq.1, te.1, o, aspect_strength o orb⟩]
        else []).mergeSort transitLe

/-- One per-day entry of the `days` list of `compute_timing_window`; the
date is abstracted to the day offset `i` from the start instant. -/
structure TimingDay where
  date : ℕ
  priors : ℝ × ℝ × ℝ
  events : List TransitEvent

/-- The per-day event list of `compute_timing_window`: tight-orb detection,
then medium-orb detection, concatenated in that order and truncated to 50.
`provider` abstracts the external swisseph ephemeris (spec §6: a pure,
deterministic position source); `provider i` is the transit longitude table
for day `i` of the window. -/
def timing_day_events (natal_objs : List (String × ℚ))
    (provider : ℕ → List (String × ℚ)) (tight_orb medium_orb : ℚ) (i : ℕ) :
    List TransitEvent :=
  (detect_transit_events natal_objs (provider i) tight_orb "tight" ++
    detect_transit_events natal_objs (provider i) medium_orb "medium").take 50

/-- `compute_timing_window` from `astrology_timing.py`: for each of `days`
day offsets, recompute the transit snapshot (through `provider`), detect
tight and medium events, truncate to 50, and derive the day's priors. -/
noncomputable def compute_timing_window (natal_objs : List (String × ℚ))
    (provider : ℕ → List (String × ℚ)) (days : ℕ) (tight_orb medium_orb : ℚ) :
    List TimingDay :=
  (List.range days).map fun i =>
    ⟨i, state_priors_from_transits
        (timing_day_events natal_objs provider tight_orb medium_orb i),
      timing_day_events natal_objs provider tight_orb medium_orb i⟩

/-- C7: `compute_timing_window` produces exactly `days` per-day entries, and
day `i` carries exactly the tight-orb detection result followed by the
medium-orb detection result, concatenated in that order and truncated to the
strongest 50 events, with the priors derived from that truncated list. -/
theorem c7_timing_window (natal_objs : List (String × ℚ))
    (provider : ℕ → List (String × ℚ)) (days : ℕ) (tight_orb medium_orb : ℚ) :
    (compute_timing_window natal_objs provider days tight_orb medium_orb).length
      = days ∧
    ∀ i : ℕ, i < days →
      (compute_timing_window natal_objs provider days tight_orb
          medium_orb)[i]? =
        some ⟨i,
          state_priors_from_transits
            ((detect_transit_events natal_objs (provider i) tight_orb "tight" ++
              detect_transit_events natal_objs (provider i) medium_orb
                "medium").take 50),
          (detect_transit_events natal_objs (provider i) tight_orb "tight" ++
            detect_transit_events natal_objs (provider i) medium_orb
              "medium").take 50⟩ := by
  constructor
  · rw [compute_timing_window, List.length_map, List.length_range]
  · intro i hi
    rw [compute_timing_window, List.getElem?_map, List.getElem?_range hi]
    rfl

/-- Witness for C7 at a one-day window over a concrete chart. -/
theorem c7_timing_window_witness :
    (compute_timing_window [("Sun", 0)] (fun _ => [("Mars", 90)]) 1 (3 / 2)
        3).length = 1 ∧
    (compute_timing_window [("Sun", 0)] (fun _ => [("Mars", 90)]) 1 (3 / 2)
        3)[0]? =
      some ⟨0,
        state_priors_from_transits
          ((detect_transit_events [("Sun", 0)] [("Mars", 90)] (3 / 2) "tight" ++
            detect_transit_events [("Sun", 0)] [("Mars", 90)] 3
              "medium").take 50),
        (detect_transit_events [("Sun", 0)] [("Mars", 90)] (3 / 2) "tight" ++
          detect_transit_events [("Sun", 0)] [("Mars", 90)] 3
            "medium").take 50⟩ :=
  ⟨(c7_timing_window [("Sun", 0)] (fun _ => [("Mars", 90)]) 1 (3 / 2) 3).1,
    (c7_timing_window [("Sun", 0)] (fun _ => [("Mars", 90)]) 1 (3 / 2) 3).2 0
      (by norm_num)⟩

lemma mem_detect_transit_events {natal_objs trans_objs : List (String × ℚ)}
    {orb : ℚ} {tier tn nn an : String} {tl nl e : ℚ}
    (htrans : (tn, tl) ∈ trans_objs) (hnatal : (nn, nl) ∈ natal_objs)
    (hasp : (an, e) ∈ ASPECTS) (horb : |ang_diff tl nl - e| ≤ orb) :
    (⟨tier, tn, nn, an, |ang_diff tl nl - e|,
        aspect_strength (|ang_diff tl nl - e|) orb⟩ : TransitEvent) ∈
      detect_transit_events natal_objs trans_objs orb tier := by
  rw [detect_transit_events, List.mem_mergeSort, List.mem_flatMap]
  refine ⟨(tn, tl), htrans, ?_⟩
  rw [List.mem_flatMap]
  refine ⟨(nn, nl), hnatal, ?_⟩
  rw [List.mem_flatMap]
  refine ⟨(an, e), hasp, ?_⟩
  dsimp only
  rw [if_pos horb]
  exact List.mem_singleton.mpr rfl

/-- C8: with tight orb at most medium orb, a transit-natal pair and aspect
whose orb is within the tight threshold yields two event entries for the
same pair and aspect — one tagged "tight", one tagged "medium" — in the
respective detection lists that day `i` of the window concatenates; and when
both survive the truncation to 50 (the day's event list is a permutation of
both events plus a rest), each contributes its own additive term to that
day's BIS/BAS/FFFS prior accumulators. -/
theorem c8_dual_tier_events (natal_objs : List (String × ℚ))
    (provider : ℕ → List (String × ℚ)) (days : ℕ) (tight_orb medium_orb : ℚ)
    (hord : tight_orb ≤ medium_orb) (i : ℕ) (hi : i < days)
    (tn nn an : String) (tl nl e : ℚ)
    (htrans : (tn, tl) ∈ provider i) (hnatal : (nn, nl) ∈ natal_objs)
    (hasp : (an, e) ∈ ASPECTS) (horb : |ang_diff tl nl - e| ≤ tight_orb) :
    (⟨"tight", tn, nn, an, |ang_diff tl nl - e|,
        aspect_strength (|ang_diff tl nl - e|) tight_orb⟩ : TransitEvent) ∈
      detect_transit_events natal_objs (provider i) tight_orb "tight" ∧
    (⟨"medium", tn, nn, an, |ang_diff tl nl - e|,
        aspect_strength (|ang_diff tl nl - e|) medium_orb⟩ : TransitEvent) ∈
      detect_transit_events natal_objs (provider i) medium_orb "medium" ∧
    ((compute_timing_window natal_objs provider days tight_orb
        medium_orb)[i]?.map TimingDay.events =
      some (timing_day_events natal_objs provider tight_orb medium_orb i)) ∧
    (∀ (eT eM : TransitEvent) (rest : List TransitEvent),
      (timing_day_events natal_objs provider tight_orb medium_orb i).Perm
          (eT :: eM :: rest) →
        priors_acc (timing_day_events natal_objs provider tight_orb medium_orb i) =
          (contribBIS eT + contribBIS eM + (priors_acc rest).1,
           contribBAS eT + contribBAS eM + (priors_acc rest).2.1,
           contribFFFS eT + contribFFFS eM + (priors_acc rest).2.2)) := by
  refine ⟨mem_detect_transit_events htrans hnatal hasp horb,
    mem_detect_transit_events htrans hnatal hasp (horb.trans hord), ?_, ?_⟩
  · rw [compute_timing_window, List.getElem?_map, List.getElem?_range hi]
    rfl
  · intro eT eM rest hperm
    rw [priors_acc_eq_sum, priors_acc_eq_sum]
    have hB := (hperm.map contribBIS).sum_eq
    have hA := (hperm.map contribBAS).sum_eq
    have hF := (hperm.map contribFFFS).sum_eq
    simp only [List.map_cons, List.sum_cons] at hB hA hF
    rw [hB, hA, hF]
    refine Prod.ext ?_ (Prod.ext ?_ ?_) <;> dsimp only <;> ring

/-- Witness for C8: Mars in square to the natal Sun, within the tight orb of
a one-day window. -/
theorem c8_dual_tier_events_witness :
    (⟨"tight", "Mars", "Sun", "square", |ang_diff 90 0 - 90|,
        aspect_strength (|ang_diff 90 0 - 90|) (3 / 2)⟩ : TransitEvent) ∈
      detect_transit_events [("Sun", 0)] [("Mars", 90)] (3 / 2) "tight" ∧
    (⟨"medium", "Mars", "Sun", "square", |ang_diff 90 0 - 90|,
        aspect_strength (|ang_diff 90 0 - 90|) 3⟩ : TransitEvent) ∈
      detect_transit_events [("Sun", 0)] [("Mars", 90)] 3 "medium" ∧
    ((compute_timing_window [("Sun", 0)] (fun _ => [("Mars", 90)]) 1 (3 / 2)
        3)[0]?.map TimingDay.events =
      some (timing_day_events [("Sun", 0)] (fun _ => [("Mars", 90)]) (3 / 2) 3 0)) ∧
    (∀ (eT eM : TransitEvent) (rest : List TransitEvent),
      (timing_day_events [("Sun", 0)] (fun _ => [("Mars", 90)]) (3 / 2) 3 0).Perm
          (eT :: eM :: rest) →
        priors_acc (timing_day_events [("Sun", 0)] (fun _ => [("Mars", 90)])
            (3 / 2) 3 0) =
          (contribBIS eT + contribBIS eM + (priors_acc rest).1,
           contribBAS eT + contribBAS eM + (priors_acc rest).2.1,
           contribFFFS eT + contribFFFS eM + (priors_acc rest).2.2)) :=
  c8_dual_tier_events [("Sun", 0)] (fun _ => [("Mars", 90)]) 1 (3 / 2) 3
    (by norm_num) 0 (by norm_num) "Mars" "Sun" "square" 90 0 90
    (List.mem_singleton.mpr rfl) (List.mem_singleton.mpr rfl)
    (by simp [ASPECTS]) (by norm_num [ang_diff, wrap360, pymod])

/-- The `traits` sub-dict of a node's latent payload in `bowen.py`; only
`N` is read. -/
structure Traits where
  N : Option ℚ
deriving DecidableEq, Repr

/-- The `state` sub-dict of a node's latent payload; `BIS` and `recovery`
are read. -/
structure NodeState where
  BIS : Option ℚ
  recovery : Option ℚ
deriving DecidableEq, Repr

/-- A node's `latent` attribute: optional `traits` and `state` sub-dicts
(a missing or empty sub-dict yields the `0.5` defaults). -/
structure NodeLatent where
  traits : Option Traits
  state : Option NodeState
deriving DecidableEq, Repr

/-- `differentiation_proxy` from `bowen.py`:
`dos = (1-N)*0.45 + (1-BIS)*0.35 + recovery*0.20`, clamped to `[0,1]`, with
every input defaulting to `0.5`. -/
def differentiation_proxy (node_latent : NodeLatent) : ℚ :=
  let N := match node_latent.traits with | none => 1 / 2 | some t => t.N.getD (1 / 2)
  let BIS := match node_latent.state with | none => 1 / 2 | some s => s.BIS.getD (1 / 2)
  let recovery :=
    match node_latent.state with | none => 1 / 2 | some s => s.recovery.getD (1 / 2)
  max 0 (min 1 ((1 - N) * (45 / 100) + (1 - BIS) * (35 / 100) + recovery * (20 / 100)))

/-- An undirected networkx graph: nodes with latent payloads, and undirected
edges carrying a `conflict_risk` attribute. -/
structure Graph where
  nodes : List (String × NodeLatent)
  edges : List ((String × String) × ℚ)

/-- `G.has_edge(x, y)`: an undirected edge lookup over the edge list. -/
def hasEdge (edges : List ((String × String) × ℚ)) (x y : String) : Bool :=
  match edges with
  | [] => false
  | ed :: rest =>
      if (ed.1.1 = x ∧ ed.1.2 = y) ∨ (ed.1.1 = y ∧ ed.1.2 = x) then true
      else hasEdge rest x y

/-- `G.edges[x, y].get("conflict_risk", 0.0)`: the risk of the undirected
edge between `x` and `y`, `0` when the attribute is absent. -/
def edgeRisk (edges : List ((String × String) × ℚ)) (x y : String) : ℚ :=
  match edges with
  | [] => 0
  | ed :: rest =>
      if (ed.1.1 = x ∧ ed.1.2 = y) ∨ (ed.1.1 = y ∧ ed.1.2 = x) then ed.2
      else edgeRisk rest x y

/-- `triangle_risk` from `bowen.py`: `min(1, (sum of the three edge risks)/2)`. -/
def triangle_risk (G : Graph) (a b c : String) : ℚ :=
  min 1 ((edgeRisk G.edges a b + edgeRisk G.edges a c + edgeRisk G.edges b c) / 2)

/-- The ordered-triple enumeration of the nested `i < j < k` loop of
`compute_bowen`. -/
def triplesOf {α : Type} : List α → List (α × α × α)
  | [] => []
  | x :: xs => ((pairsOf xs).map fun yz => (x, yz.1, yz.2)) ++ triplesOf xs

/-- One retained triangle entry of `compute_bowen`. -/
structure TriEntry where
  a : String
  b : String
  c : String
  risk : ℚ
deriving DecidableEq, Repr

/-- The sort key of `compute_bowen`: `key=lambda x: -x["risk"]`. -/
def triLe (x y : TriEntry) : Bool := decide (y.risk ≤ x.risk)

/-- `compute_bowen` from `bowen.py`: a differentiation score per node, and
the triangles over all `i < j < k` node triples whose three edges exist,
retained only when `risk > 0.4`, sorted by descending risk, truncated to
the top 20. -/
def compute_bowen (G : Graph) : List (String × ℚ) × List TriEntry :=
  (G.nodes.map fun n => (n.1, differentiation_proxy n.2),
    (((triplesOf (G.nodes.map Prod.fst)).filterMap fun t =>
      if hasEdge G.edges t.1 t.2.1 ∧ hasEdge G.edges t.1 t.2.2 ∧
          hasEdge G.edges t.2.1 t.2.2 then
        if 2 / 5 < triangle_risk G t.1 t.2.1 t.2.2 then
          some ⟨t.1, t.2.1, t.2.2, triangle_risk G t.1 t.2.1 t.2.2⟩
        else none
      else none).mergeSort triLe).take 20)

/-- The 4-node graph with one complete triangle on real (zero) edge risks
and a pendant node, used to refute C6 as stated: the triangle's risk is
`0 ≤ 0.4`, so it is filtered out. -/
def c6Graph : Graph :=
  ⟨[("A", ⟨none, none⟩), ("B", ⟨none, none⟩), ("C", ⟨none, none⟩),
    ("D", ⟨none, none⟩)],
   [(("A", "B"), 0), (("A", "C"), 0), (("B", "C"), 0), (("D", "C"), 0)]⟩

/-- Counterexample to C6 as stated: a 4-node graph whose edges form exactly
one complete triangle `{A, B, C}` (all three conflict risks 0, which are
legitimate risks in `[0,1]`) plus a pendant `D`; `compute_bowen` returns no
triangle entry at all — the `risk > 0.4` retention filter drops it — so it
does not return exactly one entry for `{A, B, C}`. -/
theorem c6_counterexample : (compute_bowen c6Graph).2 = [] := by
  norm_num [c6Graph, compute_bowen, triplesOf, pairsOf, hasEdge, edgeRisk,
    triangle_risk]

/-- C6 (amended): for every 4-node graph whose edges form exactly one
complete triangle `{A, B, C}` (non-negative risks) plus a pendant node `D`
attached to one triangle vertex, provided the triangle risk
`min(1, (r1+r2+r3)/2)` exceeds the `0.4` retention threshold, `compute_bowen`
returns exactly one triangle entry, identifying the set `{A, B, C}`, with
risk equal to `clamp((r1+r2+r3)/2, 0, 1)`; `D` appears in
`differentiation_proxy` but never in the triangle entry. -/
theorem c6_triangle_enumeration (A B C D X : String) (lA lB lC lD : NodeLatent)
    (r1 r2 r3 r4 : ℚ)
    (hAB : A ≠ B) (hAC : A ≠ C) (hAD : A ≠ D) (hBC : B ≠ C) (hBD : B ≠ D)
    (hCD : C ≠ D) (hX : X = A ∨ X = B ∨ X = C)
    (h1 : 0 ≤ r1) (h2 : 0 ≤ r2) (h3 : 0 ≤ r3)
    (hrisk : 2 / 5 < min 1 ((r1 + r2 + r3) / 2)) :
    (compute_bowen ⟨[(A, lA), (B, lB), (C, lC), (D, lD)],
        [((A, B), r1), ((A, C), r2), ((B, C), r3), ((D, X), r4)]⟩).2 =
      [⟨A, B, C, min 1 ((r1 + r2 + r3) / 2)⟩] ∧
    min 1 ((r1 + r2 + r3) / 2) = max 0 (min 1 ((r1 + r2 + r3) / 2)) ∧
    (compute_bowen ⟨[(A, lA), (B, lB), (C, lC), (D, lD)],
        [((A, B), r1), ((A, C), r2), ((B, C), r3), ((D, X), r4)]⟩).1.map
        Prod.fst = [A, B, C, D] ∧
    ∀ t ∈ (compute_bowen ⟨[(A, lA), (B, lB), (C, lC), (D, lD)],
        [((A, B), r1), ((A, C), r2), ((B, C), r3), ((D, X), r4)]⟩).2,
      ({t.a, t.b, t.c} : Finset String) = {A, B, C} ∧
        t.a ≠ D ∧ t.b ≠ D ∧ t.c ≠ D := by
  have hmain : (compute_bowen ⟨[(A, lA), (B, lB), (C, lC), (D, lD)],
      [((A, B), r1), ((A, C), r2), ((B, C), r3), ((D, X), r4)]⟩).2 =
      [⟨A, B, C, min 1 ((r1 + r2 + r3) / 2)⟩] := by
    obtain ⟨hrA, hrB⟩ := lt_min_iff.mp hrisk
    rcases hX with rfl | rfl | rfl <;>
      simp [compute_bowen, triplesOf, pairsOf, hasEdge, edgeRisk, triangle_risk,
        List.filterMap_cons, List.take_of_length_le,
        hAB, hAC, hAD, hBC, hBD, hCD, Ne.symm hAB, Ne.symm hAC, Ne.symm hAD,
        Ne.symm hBC, Ne.symm hBD, Ne.symm hCD, hrA, hrB]
  refine ⟨hmain, ?_, ?_, ?_⟩
  · rw [max_eq_right]
    exact le_min (by norm_num) (by positivity)
  · simp [compute_bowen]
  · intro t ht
    rw [hmain, List.mem_singleton] at ht
    subst ht
    exact ⟨rfl, hAD, hBD, hCD⟩

/-- Witness for C6 (amended) at a concrete graph: triangle `A B C` with edge
risks `1/2` each and pendant `D` attached to `C`. -/
theorem c6_triangle_enumeration_witness :
    (compute_bowen ⟨[("A", ⟨none, none⟩), ("B", ⟨none, none⟩),
        ("C", ⟨none, none⟩), ("D", ⟨none, none⟩)],
        [(("A", "B"), 1 / 2), (("A", "C"), 1 / 2), (("B", "C"), 1 / 2),
          (("D", "C"), 1 / 4)]⟩).2 =
      [⟨"A", "B", "C", min 1 ((1 / 2 + 1 / 2 + 1 / 2) / 2)⟩] ∧
    min 1 (((1 : ℚ) / 2 + 1 / 2 + 1 / 2) / 2) =
      max 0 (min 1 ((1 / 2 + 1 / 2 + 1 / 2) / 2)) ∧
    (compute_bowen ⟨[("A", ⟨none, none⟩), ("B", ⟨none, none⟩),
        ("C", ⟨none, none⟩), ("D", ⟨none, none⟩)],
        [(("A", "B"), 1 / 2), (("A", "C"), 1 / 2), (("B", "C"), 1 / 2),
          (("D", "C"), 1 / 4)]⟩).1.map Prod.fst = ["A", "B", "C", "D"] ∧
    ∀ t ∈ (compute_bowen ⟨[("A", ⟨none, none⟩), ("B", ⟨none, none⟩),
        ("C", ⟨none, none⟩), ("D", ⟨none, none⟩)],
        [(("A", "B"), 1 / 2), (("A", "C"), 1 / 2), (("B", "C"), 1 / 2),
          (("D", "C"), 1 / 4)]⟩).2,
      ({t.a, t.b, t.c} : Finset String) = {"A", "B", "C"} ∧
        t.a ≠ "D" ∧ t.b ≠ "D" ∧ t.c ≠ "D" :=
  c6_triangle_enumeration "A" "B" "C" "D" "C" ⟨none, none⟩ ⟨none, none⟩
    ⟨none, none⟩ ⟨none, none⟩ (1 / 2) (1 / 2) (1 / 2) (1 / 4)
    (by decide) (by decide) (by decide) (by decide) (by decide) (by decide)
    (Or.inr (Or.inr rfl)) (by norm_num) (by norm_num) (by norm_num)
    (by norm_num)

end Frags
